import Mathlib

/-!
Verification development for the sequence-parser and linear-algebra modules
(`polyply/src/simple_seq_parsers.py`, `polyply/src/linalg_functions.py`).

The Python functions are shallowly embedded below.  Fallible Python code is
modelled with `Except PyError`; a raised Python exception is an
`Except.error`.  Strings follow Python slicing/stripping/splitting semantics
via the `py*` helpers.  The networkx graph operations actually exercised by
the source are modelled explicitly (`NxGraph`, `JGraph`).
-/

/-- Python exception kinds raised by the embedded code paths. -/
inductive PyError where
  | networkXError (msg : String)
  | attributeError (msg : String)
  | ioError (msg : String)
  | nameError (msg : String)
deriving DecidableEq, Repr

/-- Characters treated as whitespace by Python's `str.strip()`. -/
def pyIsSpace (c : Char) : Bool :=
  c = ' ' || c = '\t' || c = '\n' || c = '\r' || c = '\x0b' || c = '\x0c'

/-- Python `s.strip()` on a character list: drop whitespace from both ends. -/
def pyStripChars (l : List Char) : List Char :=
  ((l.dropWhile pyIsSpace).reverse.dropWhile pyIsSpace).reverse

/-- Python `s.strip()`. -/
def pyStrip (s : String) : String :=
  String.mk (pyStripChars s.data)

/-- Python `s[:-1]`: the string without its last character (empty stays empty). -/
def pyDropLast (s : String) : String :=
  String.mk s.data.dropLast

/-- The part of `l` before the first occurrence of `c` (Python `l.split(c, 1)[0]`). -/
def takeBefore (c : Char) : List Char → List Char
  | [] => []
  | x :: xs => if x = c then [] else x :: takeBefore c xs

/-- `vermouth.parser_utils.split_comments(line, comment_char)[0]`: the stripped
content of `line` before the first comment character. -/
def split_comments_data (commentChar : Char) (line : String) : String :=
  String.mk (pyStripChars (takeBefore commentChar line.data))

/-- Python `s.split(delim)` for a single-character delimiter; note that
splitting the empty string yields `[""]`, exactly as in Python. -/
def pySplit (delim : Char) : List Char → List (List Char)
  | [] => [[]]
  | c :: cs =>
    let rest := pySplit delim cs
    if c = delim then [] :: rest
    else
      match rest with
      | r :: rs => (c :: r) :: rs
      | [] => [[c]]

/-- Association-list lookup modelling Python `dict[key]` / `key in dict`
for the fixed alphabet tables. -/
def dictLookup : List (Char × String) → Char → Option String
  | [], _ => none
  | (k, v) :: rest, c => if c = k then some v else dictLookup rest c

/-- The `ONE_LETTER_AAS` table (simple_seq_parsers.py lines 21-47). -/
def ONE_LETTER_AAS : List (Char × String) :=
  [('A', "ALA"), ('R', "ARG"), ('N', "ASN"), ('D', "ASP"), ('C', "CYS"),
   ('Q', "GLB"), ('E', "GLU"), ('G', "GLY"), ('H', "HIS"), ('I', "ILE"),
   ('L', "LEU"), ('K', "LYS"), ('M', "MET"), ('F', "PHE"), ('P', "PRO"),
   ('O', "PLY"), ('S', "SER"), ('U', "SEC"), ('T', "THR"), ('W', "TRP"),
   ('Y', "TYR"), ('V', "VAL"), ('B', "ASX"), ('Z', "GLX"), ('X', "XAA"),
   ('J', "XLE")]

/-- The `ONE_LETTER_DNA` table (lines 49-52). -/
def ONE_LETTER_DNA : List (Char × String) :=
  [('A', "DA"), ('C', "DC"), ('G', "DG"), ('T', "DT")]

/-- The `ONE_LETTER_RNA` table (lines 54-57). -/
def ONE_LETTER_RNA : List (Char × String) :=
  [('A', "A"), ('C', "C"), ('G', "G"), ('T', "U")]

/-- networkx undirected graph with integer nodes, insertion-ordered. -/
structure NxGraph where
  nodes : List Nat
  edges : List (Nat × Nat)
deriving DecidableEq, Repr

/-- The empty `nx.Graph()`. -/
def NxGraph.empty : NxGraph := { nodes := [], edges := [] }

/-- `Graph.add_edge(u, v)`: missing endpoints are created (appended in order),
and a duplicate edge (in either orientation) is not added twice. -/
def NxGraph.addEdge (g : NxGraph) (u v : Nat) : NxGraph :=
  let ns := if g.nodes.contains u then g.nodes else g.nodes ++ [u]
  let ns := if ns.contains v then ns else ns ++ [v]
  let es :=
    if g.edges.contains (u, v) || g.edges.contains (v, u) then g.edges
    else g.edges ++ [(u, v)]
  { nodes := ns, edges := es }

/-- `Graph.add_edges_from(ebunch)` where each member of `ebunch` is a tuple of
node ids: a tuple that is not a 2-tuple or 3-tuple raises `NetworkXError`. -/
def addEdgesFrom (g : NxGraph) : List (List Nat) → Except PyError NxGraph
  | [] => Except.ok g
  | e :: rest =>
    match e with
    | [u, v] => addEdgesFrom (g.addEdge u v) rest
    | _ => Except.error (PyError.networkXError "Edge tuple must be a 2-tuple or 3-tuple")

/-- Python `zip(it)` applied to a SINGLE iterable: a list of 1-tuples.
This is exactly what `zip(range(0, len(monomers)))` produces on line 66. -/
def pyZip1 (l : List Nat) : List (List Nat) :=
  l.map (fun i => [i])

/-- `_monomers_to_linear_nx_graph` (lines 59-69).  Line 66 passes the
1-tuples of `zip(range(0, len(monomers)))` to `add_edges_from`, which raises
`NetworkXError` whenever `monomers` is non-empty; when `monomers` is empty the
subsequent call to `nx.add_node_attributes` (line 67) raises
`AttributeError`, because networkx has no function of that name (its name is
`set_node_attributes`).  The function therefore never returns a graph. -/
def monomers_to_linear_nx_graph (monomers : List String) : Except PyError NxGraph :=
  match addEdgesFrom NxGraph.empty (pyZip1 (List.range monomers.length)) with
  | Except.error e => Except.error e
  | Except.ok _ =>
      Except.error (PyError.attributeError "module networkx has no attribute add_node_attributes")

/-- The token dispatch of `parse_plain` (lines 100-108): look the character up
in the table selected by the mode flags, else raise `IOError` with the
verbatim message of line 107 (a plain string containing a literal brace
placeholder, not an f-string). -/
def mapToken (DNA RNA : Bool) (token : Char) : Except PyError String :=
  if (dictLookup ONE_LETTER_AAS token).isSome && !DNA && !RNA then
    Except.ok ((dictLookup ONE_LETTER_AAS token).getD "")
  else if (dictLookup ONE_LETTER_DNA token).isSome && DNA then
    Except.ok ((dictLookup ONE_LETTER_DNA token).getD "")
  else if (dictLookup ONE_LETTER_RNA token).isSome && RNA then
    Except.ok ((dictLookup ONE_LETTER_RNA token).getD "")
  else
    Except.error (PyError.ioError "Cannot find one letter residue match for \x7b \x7d")

/-- Map every character of one stripped line (inner loop of `parse_plain`). -/
def mapTokens (DNA RNA : Bool) : List Char → Except PyError (List String)
  | [] => Except.ok []
  | c :: cs =>
    match mapToken DNA RNA c with
    | Except.error e => Except.error e
    | Except.ok r =>
      match mapTokens DNA RNA cs with
      | Except.error e => Except.error e
      | Except.ok rest => Except.ok (r :: rest)

/-- The monomer-collection loop of `parse_plain` (lines 97-110). -/
def collectMonomers (DNA RNA : Bool) : List String → Except PyError (List String)
  | [] => Except.ok []
  | l :: ls =>
    match mapTokens DNA RNA (pyStripChars l.data) with
    | Except.error e => Except.error e
    | Except.ok ms =>
      match collectMonomers DNA RNA ls with
      | Except.error e => Except.error e
      | Except.ok rest => Except.ok (ms ++ rest)

/-- `parse_plain(lines, DNA, RNA)` (lines 89-113). -/
def parse_plain (lines : List String) (DNA RNA : Bool) : Except PyError NxGraph :=
  match collectMonomers DNA RNA lines with
  | Except.error e => Except.error e
  | Except.ok monomers => monomers_to_linear_nx_graph monomers

/-- `parse_plain_delimited(filehandle, delimiter)` (lines 71-84); the file is
represented by its list of lines. -/
def parse_plain_delimited (delimiter : Char) (lines : List String) : Except PyError NxGraph :=
  monomers_to_linear_nx_graph
    (lines.map (fun l => (pySplit delimiter (pyStripChars l.data)).map String.mk)).flatten

/-- `parse_csv = partial(parse_plain_delimited, delimiter=',')` (line 86). -/
def parse_csv : List String → Except PyError NxGraph :=
  parse_plain_delimited ','

/-- `parse_txt = parse_plain_delimited` with the default space delimiter (line 87). -/
def parse_txt : List String → Except PyError NxGraph :=
  parse_plain_delimited ' '

/-- The comment-stripped content used by `parse_ig` (line 128, default
comment character of `split_comments`). -/
def igClean (line : String) : String :=
  split_comments_data ';' line

/-- The terminator test of line 130: `clean_line[:-1] == '1' or clean_line[:-1] == '2'`. -/
def igIsTer (line : String) : Bool :=
  decide (pyDropLast (igClean line) = "1" ∨ pyDropLast (igClean line) = "2")

/-- Scan of the `parse_ig` loop: the first index whose line passes the
terminator test of line 130, together with its comment-stripped content. -/
def findTerm : Nat → List String → Option (Nat × String)
  | _, [] => none
  | i, l :: ls => if igIsTer l then some (i, igClean l) else findTerm (i + 1) ls

/-- `parse_ig(filehandle)` (lines 115-142).  The first component records
whether the warning of line 140 was printed; the second is the returned graph
or the raised exception.  When the loop finds no line passing the terminator
test, line 142 returns the never-assigned local `seq_graph`, raising
`NameError`; note that only the truncated terminator line itself is ever
appended to `clean_lines` (no other line is), and that the warning guard of
line 139 compares the loop index against `len(lines)` (not `len(lines)-1`). -/
def parse_ig (lines : List String) : Bool × Except PyError NxGraph :=
  match findTerm 0 lines with
  | some (idx, cl) =>
    let ter_char := pyDropLast cl
    let clean_line := pyDropLast (pyDropLast cl)
    match parse_plain [clean_line] false false with
    | Except.error e => (false, Except.error e)
    | Except.ok g =>
      let g := if ter_char = "2" then g.addEdge 0 g.nodes.length else g
      (decide (idx < lines.length), Except.ok g)
  | none =>
    (decide (lines.length - 1 < lines.length),
     Except.error (PyError.nameError "name seq_graph is not defined"))

/-- The line-collection loop of `parse_fasta` (lines 154-165): count header
markers, stop (with a warning) once a second header is seen, and strip
everything from `>` onwards on each collected line. -/
def fastaCollect : Nat → List String → Bool × List String
  | _, [] => (false, [])
  | count, l :: ls =>
    let count := if l.data.contains '>' then count + 1 else count
    if count > 1 then (true, [])
    else
      let r := fastaCollect count ls
      (r.1, split_comments_data '>' l :: r.2)

/-- `parse_fasta(filehandle)` (lines 144-168); the first component records
whether the more-than-one-sequence warning was printed. -/
def parse_fasta (lines : List String) : Bool × Except PyError NxGraph :=
  let r := fastaCollect 0 lines
  (r.1, parse_plain r.2 false false)

/-- Node attributes of a JSON node-link graph, modelled as key/value pairs. -/
abbrev NodeAttrs := List (String × String)

/-- Attributed graph with integer node keys, insertion-ordered, modelling the
networkx graphs handled by `parse_json`. -/
structure JGraph where
  nodes : List (Int × NodeAttrs)
  edges : List (Int × Int × NodeAttrs)
deriving DecidableEq, Repr

/-- Python `dict.update`: existing keys keep their position and get the new
value, new keys are appended in order. -/
def dictUpdate (old upd : NodeAttrs) : NodeAttrs :=
  (old.map fun kv =>
    match upd.find? (fun kv2 => kv2.1 == kv.1) with
    | some kv2 => kv2
    | none => kv)
  ++ upd.filter (fun kv2 => !(old.any (fun kv => kv.1 == kv2.1)))

/-- `Graph.add_node(k, **attrs)`: append a fresh node, or update the
attributes of an existing one in place. -/
def JGraph.addNode (g : JGraph) (k : Int) (a : NodeAttrs) : JGraph :=
  if g.nodes.any (fun p => decide (p.1 = k)) then
    { g with nodes := g.nodes.map fun p => if p.1 = k then (k, dictUpdate p.2 a) else p }
  else
    { g with nodes := g.nodes ++ [(k, a)] }

/-- `Graph.add_nodes_from(nodes_with_data)`. -/
def addNodesFrom (g : JGraph) : List (Int × NodeAttrs) → JGraph
  | [] => g
  | (k, a) :: rest => addNodesFrom (g.addNode k a) rest

/-- `Graph.add_edge(u, v, **attrs)` on an attributed graph: missing endpoints
are appended as attribute-less nodes, then the edge is appended.  (The input
documents considered list each undirected edge once, so the duplicate-edge
attribute merge of networkx is not exercised and not modelled.) -/
def JGraph.addEdge (g : JGraph) (u v : Int) (a : NodeAttrs) : JGraph :=
  let g :=
    if g.nodes.any (fun p => decide (p.1 = u)) then g
    else { g with nodes := g.nodes ++ [(u, [])] }
  let g :=
    if g.nodes.any (fun p => decide (p.1 = v)) then g
    else { g with nodes := g.nodes ++ [(v, [])] }
  { g with edges := g.edges ++ [(u, v, a)] }

/-- `Graph.add_edges_from(edges_with_data)`. -/
def addEdgesFromData (g : JGraph) : List (Int × Int × NodeAttrs) → JGraph
  | [] => g
  | (u, v, a) :: rest => addEdgesFromData (g.addEdge u v a) rest

/-- `parse_json` (lines 170-186), starting from the already-deserialized
node-link graph `g` (file reading and JSON decoding are out of scope): sort
the node list by node key, insert the nodes in sorted order into a fresh
graph, then copy the edges with their attributes. -/
def parse_json (g : JGraph) : JGraph :=
  addEdgesFromData
    (addNodesFrom { nodes := [], edges := [] }
      (List.insertionSort (fun a b : Int × NodeAttrs => a.1 ≤ b.1) g.nodes))
    g.edges

/-- 3-D vector over exact arithmetic. -/
abbrev Vec3 := ℚ × ℚ × ℚ

/-- The zero vector (used only as the out-of-range default of `List.getD`). -/
def vzero : Vec3 := (0, 0, 0)

/-- Componentwise difference `i - j` of two points. -/
def vsub (a b : Vec3) : Vec3 :=
  (a.1 - b.1, a.2.1 - b.2.1, a.2.2 - b.2.2)

/-- `np.dot` on 3-vectors. -/
def vdot (a b : Vec3) : ℚ :=
  a.1 * b.1 + a.2.1 * b.2.1 + a.2.2 * b.2.2

/-- The `diff` array filled by the nested loops of `radius_of_gyration`
(linalg_functions.py lines 124-129): `dot(i - j, i - j)` for every ordered
pair of points, in loop order. -/
def rogDiffs (points : List Vec3) : List ℚ :=
  (points.map fun i => points.map fun j => vdot (vsub i j) (vsub i j)).flatten

/-- The argument of the square root on line 130 of `radius_of_gyration`:
`1/N**2.0 * sum(diff)`.  The returned value of the Python function is the
square root of this quantity. -/
def radius_of_gyration_arg (points : List Vec3) : ℚ :=
  1 / (points.length : ℚ) ^ 2 * (rogDiffs points).sum

/-- The key comparison underlying `nodes.sort()` is total. -/
instance : IsTotal (Int × NodeAttrs) (fun a b => a.1 ≤ b.1) :=
  ⟨fun a b => Int.le_total a.1 b.1⟩

/-- The key comparison underlying `nodes.sort()` is transitive. -/
instance : IsTrans (Int × NodeAttrs) (fun a b => a.1 ≤ b.1) :=
  ⟨fun _ _ _ hab hbc => le_trans hab hbc⟩

/-- The strict key comparison is (vacuously) antisymmetric. -/
instance : IsAntisymm (Int × NodeAttrs) (fun a b => a.1 < b.1) :=
  ⟨fun _ _ h1 h2 => absurd (lt_trans h1 h2) (lt_irrefl _)⟩

/-- A node-link document whose integer node ids appear in the unsorted order
2, 0, 1, used to instantiate the `parse_json` claim. -/
def jsonExample : JGraph :=
  { nodes := [(2, [("resname", "ALA")]), (0, [("resname", "GLY")]), (1, [("resname", "SER")])],
    edges := [(0, 1, [("order", "1")]), (1, 2, [])] }

/-- Two concrete 3-D points used to instantiate the radius-of-gyration claim. -/
def rogExample : List Vec3 :=
  [(0, 0, 0), (2, 0, 0)]

/-- C1: the linear-graph builder, called on any non-empty monomer list, is
claimed to return the attributed path graph; on this code it instead raises
`NetworkXError` immediately, because line 66 zips a single iterable and so
hands 1-tuples to `add_edges_from`.  Evaluation at the singleton monomer list
`["ALA"]` exhibits the failure. -/
theorem monomers_to_linear_nx_graph_failure :
    monomers_to_linear_nx_graph ["ALA"]
      = Except.error (PyError.networkXError "Edge tuple must be a 2-tuple or 3-tuple") := by
  rfl

/-- C2: an IG input of four residues followed by the terminator line "2" is
claimed to yield the path 0-1-2-3 plus the closing edge (3, 0); on this code
`parse_ig` instead raises `NameError`, because the terminator test of
line 130 compares `clean_line[:-1]` (not the last character) with "1"/"2",
so the lone line "2" is never recognized and `seq_graph` is never bound.
The warning of line 140 is printed before the failing `return`. -/
theorem parse_ig_circular_failure :
    parse_ig ["ACGT", "2"]
      = (true, Except.error (PyError.nameError "name seq_graph is not defined")) := by
  rfl

/-- C4: on a character outside the selected alphabet the one-letter parser is
claimed to raise an error whose message names the offending character; this
code raises `IOError` whose message is the fixed string of line 107 — the
braces of the intended f-string placeholder are left verbatim, so no
character is named.  Evaluation at the out-of-alphabet character '1'. -/
theorem parse_plain_error_message :
    parse_plain ["1"] false false
      = Except.error (PyError.ioError "Cannot find one letter residue match for \x7b \x7d") := by
  rfl

/-- C5: on a FASTA input with two headers the parser is claimed to warn and
return the graph of the first record; this code does stop at the second
header with the warning and keeps the already-collected lines, but then the
broken linear-graph builder raises `NetworkXError`, so no graph is returned. -/
theorem parse_fasta_two_headers_failure :
    parse_fasta [">seq1", "AC", ">seq2", "GG"]
      = (true, Except.error (PyError.networkXError "Edge tuple must be a 2-tuple or 3-tuple")) := by
  rfl

/-- C6: with the terminator as the last line of the file the claim says no
warning is emitted; this code emits the warning anyway (and then raises),
because the guard of line 139 compares the loop index with `len(lines)`
instead of `len(lines) - 1`, and because the test of line 130 never
recognizes the lone terminator line "1". -/
theorem parse_ig_terminator_last_warning :
    parse_ig ["ACA", "1"]
      = (true, Except.error (PyError.nameError "name seq_graph is not defined")) := by
  rfl

/-- C8: `parse_csv` on a comma-delimited serialization and `parse_txt` on a
space-delimited serialization of the same tokens are claimed to return
identical graphs; both instead raise the same `NetworkXError` out of the
broken linear-graph builder, so neither call produces a graph at all.
Evaluation at the token sequence ALA, GLY. -/
theorem parse_csv_txt_builder_failure :
    parse_csv ["ALA,GLY"]
        = Except.error (PyError.networkXError "Edge tuple must be a 2-tuple or 3-tuple")
      ∧ parse_txt ["ALA GLY"]
        = Except.error (PyError.networkXError "Edge tuple must be a 2-tuple or 3-tuple") := by
  exact ⟨rfl, rfl⟩

/-- Helper: `add_edges_from` fails on any non-empty list of 1-tuples. -/
theorem addEdgesFrom_singleton_error (g : NxGraph) (i : Nat) (rest : List (List Nat)) :
    addEdgesFrom g ([i] :: rest)
      = Except.error (PyError.networkXError "Edge tuple must be a 2-tuple or 3-tuple") := by
  rfl

/-- Helper: the linear-graph builder raises on every input. -/
theorem monomers_to_linear_nx_graph_error (monomers : List String) :
    ∃ e, monomers_to_linear_nx_graph monomers = Except.error e := by
  cases monomers with
  | nil => exact ⟨_, rfl⟩
  | cons m ms =>
    refine ⟨PyError.networkXError "Edge tuple must be a 2-tuple or 3-tuple", ?_⟩
    unfold monomers_to_linear_nx_graph
    have h : pyZip1 (List.range (m :: ms).length) = [0] :: (List.range ms.length).map (fun i => [i + 1]) := by
      simp [pyZip1, List.length_cons, List.range_succ_eq_map, List.map_map, Function.comp]
    rw [h, addEdgesFrom_singleton_error]

/-- Helper: `parse_plain` raises on every input (its builder always does). -/
theorem parse_plain_error (lines : List String) (DNA RNA : Bool) :
    ∃ e, parse_plain lines DNA RNA = Except.error e := by
  unfold parse_plain
  cases h : collectMonomers DNA RNA lines with
  | error e => exact ⟨e, rfl⟩
  | ok ms =>
    obtain ⟨e, he⟩ := monomers_to_linear_nx_graph_error ms
    exact ⟨e, he⟩

/-- C7: on an IG input none of whose comment-stripped lines is a terminator
line "1" or "2", `parse_ig` raises an exception (a `NameError` from the
unbound `seq_graph` on the no-break path, or the exception propagating out of
`parse_plain` when the lax test of line 130 fires on a longer line) and never
returns a graph. -/
theorem parse_ig_no_terminator_raises (lines : List String)
    (h : ∀ l ∈ lines, igClean l ≠ "1" ∧ igClean l ≠ "2") :
    ∃ e, (parse_ig lines).2 = Except.error e := by
  unfold parse_ig
  cases hf : findTerm 0 lines with
  | none => exact ⟨_, rfl⟩
  | some p =>
    obtain ⟨idx, cl⟩ := p
    obtain ⟨e, he⟩ := parse_plain_error [pyDropLast (pyDropLast cl)] false false
    simp only [he]
    exact ⟨e, rfl⟩

/-- Witness for C7 at the terminator-free input `["ACGT"]`. -/
theorem parse_ig_no_terminator_raises_witness :
    (∀ l ∈ ["ACGT"], igClean l ≠ "1" ∧ igClean l ≠ "2")
      ∧ ∃ e, (parse_ig ["ACGT"]).2 = Except.error e :=
  ⟨by decide, parse_ig_no_terminator_raises ["ACGT"] (by decide)⟩

/-- Helper: every key of the RNA table is also a key of the DNA table. -/
theorem rna_none_of_dna_none (c : Char) (h : dictLookup ONE_LETTER_DNA c = none) :
    dictLookup ONE_LETTER_RNA c = none := by
  by_cases hA : c = 'A'
  · subst hA; simp [dictLookup, ONE_LETTER_DNA] at h
  · by_cases hC : c = 'C'
    · subst hC; simp [dictLookup, ONE_LETTER_DNA] at h
    · by_cases hG : c = 'G'
      · subst hG; simp [dictLookup, ONE_LETTER_DNA] at h
      · by_cases hT : c = 'T'
        · subst hT; simp [dictLookup, ONE_LETTER_DNA] at h
        · simp [dictLookup, ONE_LETTER_RNA, hA, hC, hG, hT]

/-- Helper: with both mode flags set, a character present in the DNA table is
resolved through the DNA table. -/
theorem mapToken_dna_lookup (c : Char) (r : String)
    (h : dictLookup ONE_LETTER_DNA c = some r) :
    mapToken true true c = Except.ok r := by
  simp [mapToken, h]

/-- Helper: setting both flags behaves exactly like setting only the DNA
flag, character by character. -/
theorem mapToken_both_flags (c : Char) :
    mapToken true true c = mapToken true false c := by
  cases hd : dictLookup ONE_LETTER_DNA c with
  | some r => simp [mapToken, hd]
  | none => simp [mapToken, hd, rna_none_of_dna_none c hd]

/-- Helper: `mapToken_both_flags` lifted to whole character lists. -/
theorem mapTokens_both_flags (cs : List Char) :
    mapTokens true true cs = mapTokens true false cs := by
  induction cs with
  | nil => rfl
  | cons c cs ih => simp [mapTokens, mapToken_both_flags c, ih]

/-- Helper: `mapToken_both_flags` lifted to whole line lists. -/
theorem collectMonomers_both_flags (lines : List String) :
    collectMonomers true true lines = collectMonomers true false lines := by
  induction lines with
  | nil => rfl
  | cons l ls ih => simp [collectMonomers, mapTokens_both_flags, ih]

/-- C10: when `parse_plain` is called with both mode flags set, the DNA table
wins: every character with a DNA entry is mapped through the DNA table (in
particular 'T' becomes "DT", not the RNA "U"), and the whole parser behaves
exactly as with the DNA flag alone — so the RNA table only matters for
characters without a DNA entry, and setting both flags introduces no error
of its own. -/
theorem parse_plain_dna_precedence :
    (∀ c r, dictLookup ONE_LETTER_DNA c = some r → mapToken true true c = Except.ok r)
      ∧ mapToken true true 'T' = Except.ok "DT"
      ∧ (∀ lines, parse_plain lines true true = parse_plain lines true false) := by
  refine ⟨mapToken_dna_lookup, by rfl, fun lines => ?_⟩
  simp [parse_plain, collectMonomers_both_flags]

/-- Witness for C10 at the character 'A' and the line list `["ACGT"]`. -/
theorem parse_plain_dna_precedence_witness :
    mapToken true true 'A' = Except.ok "DA"
      ∧ parse_plain ["ACGT"] true true = parse_plain ["ACGT"] true false :=
  ⟨parse_plain_dna_precedence.1 'A' "DA" (by rfl),
   parse_plain_dna_precedence.2.2 ["ACGT"]⟩

/-- Helper: adding nodes whose keys are fresh and pairwise distinct appends
them in the given order. -/
theorem addNodesFrom_fresh : ∀ (ns : List (Int × NodeAttrs)) (g : JGraph),
    ((g.nodes ++ ns).map Prod.fst).Nodup →
    addNodesFrom g ns = { nodes := g.nodes ++ ns, edges := g.edges }
  | [], g, _ => by simp [addNodesFrom]
  | (k, a) :: ns, g, h => by
    have hk : k ∉ g.nodes.map Prod.fst := by
      rw [List.map_append] at h
      have hd := (List.nodup_append.mp h).2.2
      intro hmem
      exact hd hmem (by simp)
    have hany : (g.nodes.any fun p => decide (p.1 = k)) = false := by
      rw [List.any_eq_false]
      intro p hp
      simp only [decide_eq_true_eq]
      intro hpk
      exact hk (List.mem_map.mpr ⟨p, hp, hpk⟩)
    have hstep : addNodesFrom g ((k, a) :: ns)
        = addNodesFrom { g with nodes := g.nodes ++ [(k, a)] } ns := by
      simp [addNodesFrom, JGraph.addNode, hany]
    rw [hstep, addNodesFrom_fresh ns { g with nodes := g.nodes ++ [(k, a)] }
      (by simpa [List.append_assoc] using h)]
    simp [List.append_assoc]

/-- Helper: adding edges whose endpoints are already nodes appends them in the
given order without touching the node list. -/
theorem addEdgesFromData_present : ∀ (es : List (Int × Int × NodeAttrs)) (g : JGraph),
    (∀ e ∈ es, e.1 ∈ g.nodes.map Prod.fst ∧ e.2.1 ∈ g.nodes.map Prod.fst) →
    addEdgesFromData g es = { nodes := g.nodes, edges := g.edges ++ es }
  | [], g, _ => by simp [addEdgesFromData]
  | (u, v, a) :: es, g, h => by
    have hu := (h (u, v, a) (by simp)).1
    have hv := (h (u, v, a) (by simp)).2
    have hanyu : (g.nodes.any fun p => decide (p.1 = u)) = true := by
      rw [List.any_eq_true]
      obtain ⟨p, hp, hpk⟩ := List.mem_map.mp hu
      exact ⟨p, hp, by simp [hpk]⟩
    have hanyv : (g.nodes.any fun p => decide (p.1 = v)) = true := by
      rw [List.any_eq_true]
      obtain ⟨p, hp, hpk⟩ := List.mem_map.mp hv
      exact ⟨p, hp, by simp [hpk]⟩
    have hstep : addEdgesFromData g ((u, v, a) :: es)
        = addEdgesFromData { g with edges := g.edges ++ [(u, v, a)] } es := by
      simp [addEdgesFromData, JGraph.addEdge, hanyu, hanyv]
    rw [hstep, addEdgesFromData_present es { g with edges := g.edges ++ [(u, v, a)] }
      (fun e he => h e (by simp [he]))]
    simp [List.append_assoc]

/-- Helper: under distinct node keys and edge endpoints drawn from the node
set, `parse_json` is exactly "sort the node list, keep the edge list". -/
theorem parse_json_eq (g : JGraph)
    (hn : (g.nodes.map Prod.fst).Nodup)
    (he : ∀ e ∈ g.edges, e.1 ∈ g.nodes.map Prod.fst ∧ e.2.1 ∈ g.nodes.map Prod.fst) :
    parse_json g
      = { nodes := List.insertionSort (fun a b : Int × NodeAttrs => a.1 ≤ b.1) g.nodes,
          edges := g.edges } := by
  unfold parse_json
  have hperm : (List.insertionSort (fun a b : Int × NodeAttrs => a.1 ≤ b.1) g.nodes).Perm g.nodes :=
    List.perm_insertionSort _ g.nodes
  have hnodup : ((List.insertionSort (fun a b : Int × NodeAttrs => a.1 ≤ b.1) g.nodes).map
      Prod.fst).Nodup :=
    ((hperm.map Prod.fst).nodup_iff).mpr hn
  rw [addNodesFrom_fresh _ { nodes := [], edges := [] } (by simpa using hnodup)]
  rw [addEdgesFromData_present g.edges _ ?_]
  · simp
  · intro e hee
    have hmem := he e hee
    constructor
    · simpa using ((hperm.map Prod.fst).mem_iff).mpr hmem.1
    · simpa using ((hperm.map Prod.fst).mem_iff).mpr hmem.2

/-- Helper: a list sorted by non-strict key comparison whose keys are
pairwise distinct is sorted by the strict comparison. -/
theorem sorted_strict_of_nodup (l : List (Int × NodeAttrs))
    (hs : List.Sorted (fun a b : Int × NodeAttrs => a.1 ≤ b.1) l)
    (hn : (l.map Prod.fst).Nodup) :
    List.Sorted (fun a b : Int × NodeAttrs => a.1 < b.1) l := by
  have hne : l.Pairwise fun a b => a.1 ≠ b.1 := List.pairwise_map.mp hn
  exact (hs.and hne).imp fun h => lt_of_le_of_ne h.1 h.2

/-- Helper: node lists that are permutations of each other with pairwise
distinct keys sort to the same list (sorting is order independent). -/
theorem insertionSort_eq_of_perm (l1 l2 : List (Int × NodeAttrs))
    (hp : l1.Perm l2) (hn : (l1.map Prod.fst).Nodup) :
    List.insertionSort (fun a b : Int × NodeAttrs => a.1 ≤ b.1) l1
      = List.insertionSort (fun a b : Int × NodeAttrs => a.1 ≤ b.1) l2 := by
  have hp1 := List.perm_insertionSort (fun a b : Int × NodeAttrs => a.1 ≤ b.1) l1
  have hp2 := List.perm_insertionSort (fun a b : Int × NodeAttrs => a.1 ≤ b.1) l2
  have hn1 : ((List.insertionSort (fun a b : Int × NodeAttrs => a.1 ≤ b.1) l1).map
      Prod.fst).Nodup := ((hp1.map Prod.fst).nodup_iff).mpr hn
  have hn2 : ((List.insertionSort (fun a b : Int × NodeAttrs => a.1 ≤ b.1) l2).map
      Prod.fst).Nodup :=
    ((hp2.map Prod.fst).nodup_iff).mpr (((hp.map Prod.fst).nodup_iff).mp hn)
  exact List.eq_of_perm_of_sorted
    (hp1.trans (hp.trans hp2.symm))
    (sorted_strict_of_nodup _ (List.sorted_insertionSort _ l1) hn1)
    (sorted_strict_of_nodup _ (List.sorted_insertionSort _ l2) hn2)

/-- C3: on a node-link input with pairwise-distinct comparable node keys and
edges drawn from the node set, `parse_json` returns the nodes in ascending
key order (a permutation of the input nodes, so all node attributes are
preserved), copies the edge list with its attributes unchanged, and its node
order does not depend on the order in which the nodes appeared in the input. -/
theorem parse_json_node_order (g : JGraph)
    (hn : (g.nodes.map Prod.fst).Nodup)
    (he : ∀ e ∈ g.edges, e.1 ∈ g.nodes.map Prod.fst ∧ e.2.1 ∈ g.nodes.map Prod.fst) :
    List.Sorted (· ≤ ·) ((parse_json g).nodes.map Prod.fst)
      ∧ (parse_json g).nodes.Perm g.nodes
      ∧ (parse_json g).edges = g.edges
      ∧ ∀ g2 : JGraph, g2.nodes.Perm g.nodes → g2.edges = g.edges →
          parse_json g2 = parse_json g := by
  have heq := parse_json_eq g hn he
  refine ⟨?_, ?_, ?_, ?_⟩
  · rw [heq]
    exact List.pairwise_map.mpr (List.sorted_insertionSort _ g.nodes)
  · rw [heq]
    exact List.perm_insertionSort _ g.nodes
  · rw [heq]
  · intro g2 hp2 he2
    have hn2 : (g2.nodes.map Prod.fst).Nodup := ((hp2.map Prod.fst).nodup_iff).mpr hn
    have hee2 : ∀ e ∈ g2.edges, e.1 ∈ g2.nodes.map Prod.fst ∧ e.2.1 ∈ g2.nodes.map Prod.fst := by
      intro e hee
      have hmem := he e (he2 ▸ hee)
      exact ⟨((hp2.map Prod.fst).mem_iff).mpr hmem.1, ((hp2.map Prod.fst).mem_iff).mpr hmem.2⟩
    rw [heq, parse_json_eq g2 hn2 hee2, insertionSort_eq_of_perm g2.nodes g.nodes hp2 hn2, he2]

/-- Witness for C3 at a document whose node ids appear in the order 2, 0, 1. -/
theorem parse_json_node_order_witness :
    jsonExample.nodes.map Prod.fst = [2, 0, 1]
      ∧ (parse_json jsonExample).nodes.map Prod.fst = [0, 1, 2]
      ∧ (parse_json jsonExample).nodes.Perm jsonExample.nodes :=
  ⟨by decide, by decide,
   (parse_json_node_order jsonExample (by decide) (by decide)).2.1⟩

/-- Helper: a mapped list sum as an indexed sum over positions. -/
theorem listSum_map_getD {α : Type} (f : α → ℚ) (d : α) : ∀ l : List α,
    (l.map f).sum = ∑ i ∈ Finset.range l.length, f (l.getD i d)
  | [] => by simp
  | a :: l => by
    rw [List.map_cons, List.sum_cons, List.length_cons, Finset.sum_range_succ']
    simp only [List.getD_cons_succ, List.getD_cons_zero]
    rw [listSum_map_getD f d l]
    ring

/-- Helper: the `diff` array of `radius_of_gyration` sums to the double sum
over all ordered index pairs, diagonal included. -/
theorem rogDiffs_sum (points : List Vec3) :
    (rogDiffs points).sum
      = ∑ i ∈ Finset.range points.length, ∑ j ∈ Finset.range points.length,
          vdot (vsub (points.getD i vzero) (points.getD j vzero))
               (vsub (points.getD i vzero) (points.getD j vzero)) := by
  unfold rogDiffs
  rw [List.sum_flatten, List.map_map]
  rw [listSum_map_getD _ vzero points]
  refine Finset.sum_congr rfl ?_
  intro i _
  simp only [Function.comp_apply]
  rw [listSum_map_getD _ vzero points]

/-- C9: on any non-empty point list the value returned by
`radius_of_gyration` is exactly the square root of
`(1/N^2) * sum over all N^2 ordered pairs (i, j), including i = j, of
dot(p_i - p_j, p_i - p_j)` — the literal formula, with no factor-of-2
correction. -/
theorem radius_of_gyration_literal (points : List Vec3) (h : points ≠ []) :
    Real.sqrt ((radius_of_gyration_arg points : ℝ))
      = Real.sqrt (1 / (points.length : ℝ) ^ 2
          * ∑ i ∈ Finset.range points.length, ∑ j ∈ Finset.range points.length,
              ((vdot (vsub (points.getD i vzero) (points.getD j vzero))
                     (vsub (points.getD i vzero) (points.getD j vzero)) : ℚ) : ℝ)) := by
  unfold radius_of_gyration_arg
  rw [rogDiffs_sum]
  congr 1
  push_cast
  ring

/-- Witness for C9 at the two points (0,0,0) and (2,0,0). -/
theorem radius_of_gyration_literal_witness :
    rogExample ≠ []
      ∧ Real.sqrt ((radius_of_gyration_arg rogExample : ℝ))
          = Real.sqrt (1 / (rogExample.length : ℝ) ^ 2
              * ∑ i ∈ Finset.range rogExample.length, ∑ j ∈ Finset.range rogExample.length,
                  ((vdot (vsub (rogExample.getD i vzero) (rogExample.getD j vzero))
                         (vsub (rogExample.getD i vzero) (rogExample.getD j vzero)) : ℚ) : ℝ)) :=
  ⟨by decide, radius_of_gyration_literal rogExample (by decide)⟩
